import Mathlib

/-!
Verification of the streaming consumer `kafka_consumer_seabaugh.py`.

The Python module is embedded shallowly:
* JSON-decoded Python values become the inductive `PyVal`; raw Kafka
  records become association lists `RawRecord`.
* Python's `float(...)` / `int(...)` coercions become `pyFloat` / `pyInt`
  returning `Option` (`Option.none` models a raised exception); `float`
  values are modelled by rationals.
* `process_message`, `categorize_sentiment`, the `KEYWORD_CATEGORIES`
  table, the database bootstrap (`init_db` plus the deletion step of
  `main`) and the consume loop of `consume_messages_from_kafka` are
  translated function by function.
* The bootstrap / exit-code structure of `main` and
  `consume_messages_from_kafka` is modelled by a step function over an
  environment of failure flags, with `sys.exit c` as `RunOutcome.exit c`
  and a normal return (process exit status 0) as `RunOutcome.finished`.
-/

set_option autoImplicit false

namespace BuzzlineConsumer

/-- A JSON-decoded Python value as produced by `json.loads`. -/
inductive PyVal where
  | null
  | bool (b : Bool)
  | int (n : Int)
  | float (q : ℚ)
  | str (s : String)
  | list (elems : List PyVal)
  | dict (entries : List (String × PyVal))

/-- A raw record: a Python dict with string keys, as handed to `process_message`. -/
abbrev RawRecord := List (String × PyVal)

/-- First-match association-list lookup (Python dict lookup on string keys). -/
def assocLookup {α : Type} (k : String) : List (String × α) → Option α
  | [] => Option.none
  | (k2, v) :: rest => if k = k2 then Option.some v else assocLookup k rest

/-- Python `message.get(key, default)`. -/
def dictGet (m : RawRecord) (k : String) (d : PyVal) : PyVal :=
  match assocLookup k m with
  | Option.some v => v
  | Option.none => d

/-- Numeric value of a list of decimal digit characters. -/
def digitsToNat (l : List Char) : Nat :=
  l.foldl (fun a c => 10 * a + (c.toNat - 48)) 0

/-- Python `int(s)` for a string `s`: optional sign followed by one or
more decimal digits; anything else raises `ValueError`. -/
def strToInt (s : String) : Option Int :=
  match s.toList with
  | [] => Option.none
  | c :: rest =>
    if c = '+' then
      if rest ≠ [] ∧ rest.all Char.isDigit then Option.some (digitsToNat rest) else Option.none
    else if c = '-' then
      if rest ≠ [] ∧ rest.all Char.isDigit then Option.some (-(digitsToNat rest : Int))
      else Option.none
    else if (c :: rest).all Char.isDigit then Option.some (digitsToNat (c :: rest))
    else Option.none

/-- Unsigned decimal literal: digits, optionally a point and digits, with
at least one digit present overall. -/
def parseDecimal (l : List Char) : Option ℚ :=
  let ip := l.takeWhile Char.isDigit
  let rest := l.dropWhile Char.isDigit
  match rest with
  | [] => if ip = [] then Option.none else Option.some ((digitsToNat ip : ℚ))
  | c :: frac =>
    if c = '.' ∧ frac.all Char.isDigit ∧ (ip ≠ [] ∨ frac ≠ []) then
      Option.some ((digitsToNat ip : ℚ) + (digitsToNat frac : ℚ) / (10 ^ frac.length : ℚ))
    else Option.none

/-- Python `float(s)` for a string `s` (decimal forms; a non-numeric
string raises `ValueError`). -/
def strToFloat (s : String) : Option ℚ :=
  match s.toList with
  | [] => Option.none
  | c :: rest =>
    if c = '+' then parseDecimal rest
    else if c = '-' then (parseDecimal rest).map (fun q => -q)
    else parseDecimal (c :: rest)

/-- Truncation toward zero, as Python `int(x)` on a float `x`. -/
def ratTrunc (q : ℚ) : Int :=
  if 0 ≤ q then ⌊q⌋ else -⌊-q⌋

/-- Python `float(v)` on a JSON value `v`; `Option.none` models a raised
`TypeError` / `ValueError`. -/
def pyFloat : PyVal → Option ℚ
  | PyVal.null => Option.none
  | PyVal.bool b => Option.some (if b then 1 else 0)
  | PyVal.int n => Option.some (n : ℚ)
  | PyVal.float q => Option.some q
  | PyVal.str s => strToFloat s
  | PyVal.list _ => Option.none
  | PyVal.dict _ => Option.none

/-- Python `int(v)` on a JSON value `v`; truncates floats toward zero. -/
def pyInt : PyVal → Option Int
  | PyVal.null => Option.none
  | PyVal.bool b => Option.some (if b then 1 else 0)
  | PyVal.int n => Option.some n
  | PyVal.float q => Option.some (ratTrunc q)
  | PyVal.str s => strToInt s
  | PyVal.list _ => Option.none
  | PyVal.dict _ => Option.none

/-- Whether a JSON value is unhashable in Python (lists and dicts are);
using one as a dict key raises `TypeError`. -/
def isUnhashable : PyVal → Bool
  | PyVal.list _ => true
  | PyVal.dict _ => true
  | _ => false

/-- The keyword-to-category table `KEYWORD_CATEGORIES` (lines 36-44). -/
def KEYWORD_CATEGORIES : List (String × String) :=
  [("meme", "humor"),
   ("Python", "tech"),
   ("JavaScript", "tech"),
   ("recipe", "food"),
   ("travel", "travel"),
   ("movie", "entertainment"),
   ("game", "gaming")]

/-- `KEYWORD_CATEGORIES.get(keyword_mentioned, "unknown")` (line 91):
`Option.none` models the `TypeError` raised on an unhashable key. -/
def categoryOf : PyVal → Option String
  | PyVal.list _ => Option.none
  | PyVal.dict _ => Option.none
  | PyVal.str s => Option.some ((assocLookup s KEYWORD_CATEGORIES).getD "unknown")
  | _ => Option.some "unknown"

/-- `categorize_sentiment` (lines 51-66). -/
def categorize_sentiment (sentiment_score : ℚ) : String :=
  if sentiment_score > 1/10 then "positive"
  else if sentiment_score < -(1/10) then "negative"
  else "neutral"

/-- C1: `categorize_sentiment` returns "positive" above 0.1, "negative"
below -0.1 and "neutral" in the closed interval between them; both
boundary values map to "neutral", and the function is total (it is a
plain Lean function). -/
theorem c1_categorize_sentiment (s : ℚ) :
    (s > 1/10 → categorize_sentiment s = "positive") ∧
    (s < -(1/10) → categorize_sentiment s = "negative") ∧
    (-(1/10) ≤ s → s ≤ 1/10 → categorize_sentiment s = "neutral") ∧
    categorize_sentiment (1/10) = "neutral" ∧
    categorize_sentiment (-(1/10)) = "neutral" := by
  refine ⟨?_, ?_, ?_, by norm_num [categorize_sentiment], by norm_num [categorize_sentiment]⟩
  · intro h
    simp only [categorize_sentiment, if_pos h]
  · intro h
    have h2 : ¬ s > 1/10 := by linarith
    simp only [categorize_sentiment, if_neg h2, if_pos h]
  · intro h1 h2
    have h3 : ¬ s > 1/10 := by linarith
    have h4 : ¬ s < -(1/10) := by linarith
    simp only [categorize_sentiment, if_neg h3, if_neg h4]

/-- C1 witness: the three cases of `c1_categorize_sentiment` at 1/2, -1/2 and 0. -/
theorem c1_categorize_sentiment_witness :
    categorize_sentiment (1/2) = "positive" ∧
    categorize_sentiment (-(1/2)) = "negative" ∧
    categorize_sentiment 0 = "neutral" :=
  ⟨(c1_categorize_sentiment (1/2)).1 (by norm_num),
   (c1_categorize_sentiment (-(1/2))).2.1 (by norm_num),
   ((c1_categorize_sentiment 0).2.2.1 (by norm_num) (by norm_num))⟩

/-- The dict built by a successful `process_message` (lines 104-113). -/
structure ProcessedMessage where
  message : PyVal
  author : PyVal
  timestamp : PyVal
  category : String
  sentiment : ℚ
  sentiment_category : String
  keyword_mentioned : PyVal
  message_length : Int

/-- `process_message` (lines 74-117): look up the keyword's category,
coerce `sentiment` with `float` (default `0.0`) and `message_length`
with `int` (default `0`); any raised exception is caught and the
function returns `None` (`Option.none`). -/
def process_message (m : RawRecord) : Option ProcessedMessage :=
  match categoryOf (dictGet m "keyword_mentioned" PyVal.null),
        pyFloat (dictGet m "sentiment" (PyVal.float 0)),
        pyInt (dictGet m "message_length" (PyVal.int 0)) with
  | Option.some category, Option.some score, Option.some len =>
    Option.some
      { message := dictGet m "message" PyVal.null
        author := dictGet m "author" PyVal.null
        timestamp := dictGet m "timestamp" PyVal.null
        category := category
        sentiment := score
        sentiment_category := categorize_sentiment score
        keyword_mentioned := dictGet m "keyword_mentioned" PyVal.null
        message_length := len }
  | _, _, _ => Option.none

/-- Result of the `for message in consumer` loop (lines 253-260):
`ok` means the iterator was exhausted with the final table contents;
`failed` means an exception escaped a loop iteration, was logged by the
surrounding `except` clause and re-raised, with the table as it stood. -/
inductive LoopResult where
  | ok (rows : List ProcessedMessage)
  | failed (rows : List ProcessedMessage)

/-- The consume loop (lines 253-260) over a finite prefix of the stream.
`avail i` tells whether the SQLite store accepts the insert attempted
while handling message `i` (`insert_message`, lines 158-185, raises
when the backing medium is unreachable or the schema is missing);
a falsy (`None`) processed message is skipped. -/
def consumeLoop (avail : Nat → Bool) :
    List RawRecord → Nat → List ProcessedMessage → LoopResult
  | [], _, rows => LoopResult.ok rows
  | m :: rest, i, rows =>
    match process_message m with
    | Option.none => consumeLoop avail rest (i + 1) rows
    | Option.some p =>
      if avail i then consumeLoop avail rest (i + 1) (rows ++ [p])
      else LoopResult.failed rows

/-- The SQLite database file: whether the `messages` table exists, and
its rows. `sqlite3.connect` creates the file (with no table) when it is
absent. -/
structure DbFile where
  hasTable : Bool
  rows : List ProcessedMessage

/-- `init_db` (lines 125-150): `sqlite3.connect` creates the file if
missing; `CREATE TABLE IF NOT EXISTS messages (...)` adds an empty table
only when none exists, and leaves an existing table untouched. -/
def init_db : Option DbFile → DbFile
  | Option.none => { hasTable := true, rows := [] }
  | Option.some d => if d.hasTable then d else { hasTable := true, rows := [] }

/-- STEP 2 of `main` (lines 289-296): `if sqlite_path.exists():
sqlite_path.unlink()` — afterwards the file is gone in either case
(assuming the unlink call succeeds). -/
def deletePrior : Option DbFile → Option DbFile
  | Option.some _ => Option.none
  | Option.none => Option.none

/-- STEPs 2 and 3 of `main` on the store (delete any prior file, then
`init_db`), on their success path. -/
def bootstrapStore (s : Option DbFile) : Option DbFile :=
  Option.some (init_db (deletePrior s))

/-- What the stream iterator does after a successful bootstrap:
it is interrupted (`KeyboardInterrupt`), some iteration raises an
ordinary exception (stream-level error, or an insert error re-raised by
the loop's `except` clause), or the iterator ends and the loop returns. -/
inductive StreamEvent where
  | interrupt
  | streamError
  | ended

/-- How far `consume_messages_from_kafka` (lines 193-260) gets:
`exit c` is `sys.exit(c)` (a `SystemExit`, caught neither by the
function's own `except Exception` nor by `main`'s handlers);
`interrupt` and `streamError` are exceptions escaping to the caller;
`returned` is a normal return. -/
inductive ConsumeOutcome where
  | exit (code : Nat)
  | interrupt
  | streamError
  | returned

/-- Failure flags for one run of the process: which external collaborator
calls raise, and what the stream then does. -/
structure Env where
  configOk : Bool
  dbFileExists : Bool
  unlinkFails : Bool
  initDbFails : Bool
  verifyFails : Bool
  createConsumerFails : Bool
  consumerIsNone : Bool
  topicCheckFails : Bool
  streamEvent : StreamEvent

/-- `consume_messages_from_kafka` (lines 193-260): `verify_services`
failure exits 11, consumer-creation failure exits 11, a failing topic
check exits 13 (run only when the consumer is not `None`), a `None`
consumer exits 13; otherwise the loop runs and an exception escaping it
is logged and re-raised. -/
def consume_messages_from_kafka (e : Env) : ConsumeOutcome :=
  if e.verifyFails then ConsumeOutcome.exit 11
  else if e.createConsumerFails then ConsumeOutcome.exit 11
  else if e.consumerIsNone = false ∧ e.topicCheckFails then ConsumeOutcome.exit 13
  else if e.consumerIsNone then ConsumeOutcome.exit 13
  else
    match e.streamEvent with
    | StreamEvent.interrupt => ConsumeOutcome.interrupt
    | StreamEvent.streamError => ConsumeOutcome.streamError
    | StreamEvent.ended => ConsumeOutcome.returned

/-- Outcome of the whole process: `exit c` is termination through
`sys.exit(c)` (process exit status `c`); `finished` is a normal return
from `main` (process exit status 0). -/
inductive RunOutcome where
  | exit (code : Nat)
  | finished
deriving DecidableEq

/-- `main` (lines 268-315): config failure exits 1, a failing deletion of
an existing prior database file exits 2, `init_db` failure exits 3; then
`consume_messages_from_kafka` runs, whose `sys.exit` codes propagate
(a `SystemExit` is not an `Exception`), while `KeyboardInterrupt` and any
other exception are caught and logged, after which `main` returns
normally. -/
def main (e : Env) : RunOutcome :=
  if e.configOk = false then RunOutcome.exit 1
  else if e.dbFileExists ∧ e.unlinkFails then RunOutcome.exit 2
  else if e.initDbFails then RunOutcome.exit 3
  else
    match consume_messages_from_kafka e with
    | ConsumeOutcome.exit c => RunOutcome.exit c
    | ConsumeOutcome.interrupt => RunOutcome.finished
    | ConsumeOutcome.streamError => RunOutcome.finished
    | ConsumeOutcome.returned => RunOutcome.finished

/-! Concrete records used below. -/

/-- A record mentioning the keyword "meme" and nothing else. -/
def memeRec : RawRecord := [("keyword_mentioned", PyVal.str "meme")]

/-- What `process_message` produces on `memeRec`. -/
def pMeme : ProcessedMessage :=
  { message := PyVal.null, author := PyVal.null, timestamp := PyVal.null,
    category := "humor", sentiment := 0, sentiment_category := "neutral",
    keyword_mentioned := PyVal.str "meme", message_length := 0 }

/-- A record whose `sentiment` is the non-numeric string "abc". -/
def badSentimentRec : RawRecord := [("sentiment", PyVal.str "abc")]

/-- A record whose `keyword_mentioned` is a JSON array (unhashable in Python). -/
def listKwRec : RawRecord := [("keyword_mentioned", PyVal.list [])]

/-- A record whose `sentiment` key is present with a null value. -/
def nullSentimentRec : RawRecord := [("sentiment", PyVal.null)]

/-- The empty record: every field absent. -/
def emptyRec : RawRecord := []

/-- What `process_message` produces on `emptyRec`. -/
def pEmpty : ProcessedMessage :=
  { message := PyVal.null, author := PyVal.null, timestamp := PyVal.null,
    category := "unknown", sentiment := 0, sentiment_category := "neutral",
    keyword_mentioned := PyVal.null, message_length := 0 }

/-- A record whose `message_length` is the fractional number 15.7. -/
def fracLenRec : RawRecord := [("message_length", PyVal.float (157/10))]

/-- A record whose `message_length` is the string "15.7". -/
def strLenRec : RawRecord := [("message_length", PyVal.str "15.7")]

/-! Helper lemmas shared by the claim theorems. -/

theorem categorize_sentiment_zero : categorize_sentiment 0 = "neutral" := by
  norm_num [categorize_sentiment]

theorem process_memeRec : process_message memeRec = Option.some pMeme := by
  simp [process_message, memeRec, dictGet, assocLookup, categoryOf, KEYWORD_CATEGORIES,
    pyFloat, pyInt, pMeme, categorize_sentiment_zero]

theorem process_emptyRec : process_message emptyRec = Option.some pEmpty := by
  simp [process_message, emptyRec, dictGet, assocLookup, categoryOf,
    pyFloat, pyInt, pEmpty, categorize_sentiment_zero]

theorem categoryOf_eq_none_iff (v : PyVal) :
    categoryOf v = Option.none ↔ isUnhashable v = true := by
  cases v <;> simp [categoryOf, isUnhashable]

theorem assocLookup_kw_ne_unknown (s c : String)
    (h : assocLookup s KEYWORD_CATEGORIES = Option.some c) : c ≠ "unknown" := by
  simp only [KEYWORD_CATEGORIES, assocLookup] at h
  split_ifs at h <;>
    first
      | exact Option.noConfusion h
      | (injection h with h2; subst h2; decide)

theorem consumeLoop_ok_of_avail (avail : Nat → Bool) (h : ∀ n, avail n = true)
    (msgs : List RawRecord) : ∀ (i : Nat) (rows : List ProcessedMessage),
    ∃ final, consumeLoop avail msgs i rows = LoopResult.ok final := by
  induction msgs with
  | nil => exact fun i rows => ⟨rows, rfl⟩
  | cons m rest ih =>
    intro i rows
    rcases hp : process_message m with _ | p
    · rcases ih (i + 1) rows with ⟨f, hf⟩
      exact ⟨f, by simp [consumeLoop, hp, hf]⟩
    · rcases ih (i + 1) (rows ++ [p]) with ⟨f, hf⟩
      exact ⟨f, by simp [consumeLoop, hp, h i, hf]⟩

/-! The claims. -/

/-- C7: the bootstrap (delete any prior store file, then `init_db`)
always yields a store file holding an empty `messages` table, and
running it twice against any prior state still leaves the table empty —
no rows accumulate across runs. -/
theorem c7_bootstrap_fresh (s : Option DbFile) :
    bootstrapStore s = Option.some { hasTable := true, rows := [] } ∧
    bootstrapStore (bootstrapStore s) = Option.some { hasTable := true, rows := [] } := by
  cases s <;> exact ⟨rfl, rfl⟩

/-! Canonical environments for the process-level claims. -/

/-- A run in which every bootstrap step succeeds and the stream is then
interrupted by the user. -/
def baseEnv : Env :=
  { configOk := true, dbFileExists := false, unlinkFails := false,
    initDbFails := false, verifyFails := false, createConsumerFails := false,
    consumerIsNone := false, topicCheckFails := false,
    streamEvent := StreamEvent.interrupt }

/-- Environment/config read failure. -/
def envConfigFail : Env := { baseEnv with configOk := false }

/-- Deletion of an existing prior store file fails. -/
def envUnlinkFail : Env := { baseEnv with dbFileExists := true, unlinkFails := true }

/-- Schema initialization fails. -/
def envInitDbFail : Env := { baseEnv with initDbFails := true }

/-- Broker unreachable (`verify_services` raises). -/
def envVerifyFail : Env := { baseEnv with verifyFails := true }

/-- Consumer construction fails. -/
def envCreateFail : Env := { baseEnv with createConsumerFails := true }

/-- Topic unavailable. -/
def envTopicFail : Env := { baseEnv with topicCheckFails := true }

/-- A run whose bootstrap succeeds and whose stream then raises an
unrecoverable (non-record) error. -/
def envStreamErrorRun : Env := { baseEnv with streamEvent := StreamEvent.streamError }

/-- C6 counterexample: broker-unreachable and consumer-construction
failure are two different fatal bootstrap failures, yet both terminate
the process with the same exit code 11 — the six codes are not pairwise
distinct. -/
theorem c6_cex :
    main envVerifyFail = RunOutcome.exit 11 ∧
    main envCreateFail = RunOutcome.exit 11 ∧
    envVerifyFail.verifyFails = true ∧ envVerifyFail.createConsumerFails = false ∧
    envCreateFail.verifyFails = false ∧ envCreateFail.createConsumerFails = true :=
  ⟨rfl, rfl, rfl, rfl, rfl, rfl⟩

/-- C6 amended: every one of the six fatal bootstrap/config failures
terminates the process with a nonzero exit code — config read 1, prior
store deletion 2, schema initialization 3, broker-unreachable 11,
consumer-construction 11 (shared with broker-unreachable, so the codes
are not pairwise distinct), topic-unavailable 13 — while a clean
interruption makes `main` return normally (process exit status 0). -/
theorem c6_exit_codes (e : Env) :
    (e.configOk = false → main e = RunOutcome.exit 1) ∧
    (e.configOk = true → e.dbFileExists = true → e.unlinkFails = true →
      main e = RunOutcome.exit 2) ∧
    (e.configOk = true → ¬(e.dbFileExists = true ∧ e.unlinkFails = true) →
      e.initDbFails = true → main e = RunOutcome.exit 3) ∧
    (e.configOk = true → ¬(e.dbFileExists = true ∧ e.unlinkFails = true) →
      e.initDbFails = false → e.verifyFails = true → main e = RunOutcome.exit 11) ∧
    (e.configOk = true → ¬(e.dbFileExists = true ∧ e.unlinkFails = true) →
      e.initDbFails = false → e.verifyFails = false → e.createConsumerFails = true →
      main e = RunOutcome.exit 11) ∧
    (e.configOk = true → ¬(e.dbFileExists = true ∧ e.unlinkFails = true) →
      e.initDbFails = false → e.verifyFails = false → e.createConsumerFails = false →
      e.consumerIsNone = false → e.topicCheckFails = true →
      main e = RunOutcome.exit 13) ∧
    (e.configOk = true → ¬(e.dbFileExists = true ∧ e.unlinkFails = true) →
      e.initDbFails = false → e.verifyFails = false → e.createConsumerFails = false →
      e.consumerIsNone = false → e.topicCheckFails = false →
      e.streamEvent = StreamEvent.interrupt → main e = RunOutcome.finished) := by
  refine ⟨?_, ?_, ?_, ?_, ?_, ?_, ?_⟩ <;>
    · intros
      simp_all [main, consume_messages_from_kafka]

/-- C6 witness: `c6_exit_codes` at concrete runs for config failure,
deletion failure, schema failure, topic failure and a clean interrupt. -/
theorem c6_exit_codes_witness :
    main envConfigFail = RunOutcome.exit 1 ∧
    main envUnlinkFail = RunOutcome.exit 2 ∧
    main envInitDbFail = RunOutcome.exit 3 ∧
    main envTopicFail = RunOutcome.exit 13 ∧
    main baseEnv = RunOutcome.finished :=
  ⟨(c6_exit_codes envConfigFail).1 rfl,
   (c6_exit_codes envUnlinkFail).2.1 rfl rfl rfl,
   (c6_exit_codes envInitDbFail).2.2.1 rfl (by decide) rfl,
   (c6_exit_codes envTopicFail).2.2.2.2.2.1 rfl (by decide) rfl rfl rfl rfl rfl,
   (c6_exit_codes baseEnv).2.2.2.2.2.2 rfl (by decide) rfl rfl rfl rfl rfl rfl⟩

/-- C8 counterexample: on a stream-level error the failure does
propagate out of `consume_messages_from_kafka`, but `main` catches it,
logs it and returns normally — the process exits with status 0, not
with a fatal nonzero code as the claim states. -/
theorem c8_cex :
    consume_messages_from_kafka envStreamErrorRun = ConsumeOutcome.streamError ∧
    main envStreamErrorRun = RunOutcome.finished ∧
    (¬ ∃ c, main envStreamErrorRun = RunOutcome.exit c) := by
  refine ⟨rfl, rfl, ?_⟩
  rintro ⟨c, hc⟩
  exact RunOutcome.noConfusion ((rfl : main envStreamErrorRun = RunOutcome.finished) ▸ hc)

/-- C8 amended: on an unrecoverable stream-level error the ingestion
loop exits and the failure propagates upward to the caller (`main`),
which logs it; the process then terminates normally with exit status 0
(`RunOutcome.finished`), not with a nonzero fatal code. -/
theorem c8_stream_error (e : Env)
    (h1 : e.verifyFails = false) (h2 : e.createConsumerFails = false)
    (h3 : e.consumerIsNone = false) (h4 : e.topicCheckFails = false)
    (h5 : e.streamEvent = StreamEvent.streamError) :
    consume_messages_from_kafka e = ConsumeOutcome.streamError ∧
    (e.configOk = true → ¬(e.dbFileExists = true ∧ e.unlinkFails = true) →
      e.initDbFails = false → main e = RunOutcome.finished) := by
  constructor
  · simp [consume_messages_from_kafka, h1, h2, h3, h4, h5]
  · intros
    simp_all [main, consume_messages_from_kafka]

/-- C8 witness: `c8_stream_error` at the concrete run `envStreamErrorRun`. -/
theorem c8_stream_error_witness :
    consume_messages_from_kafka envStreamErrorRun = ConsumeOutcome.streamError ∧
    main envStreamErrorRun = RunOutcome.finished := by
  have h := c8_stream_error envStreamErrorRun rfl rfl rfl rfl rfl
  exact ⟨h.1, h.2 rfl (by simp [envStreamErrorRun, baseEnv]) rfl⟩

/-- C4: a record on which normalization fails is only skipped — the loop
on the remaining records proceeds exactly as if the bad record had not
been there, no failure escapes because of it, and (whenever the store
accepts every insert) the loop still runs to completion rather than
aborting. -/
theorem c4_bad_record_skipped (avail : Nat → Bool) (m : RawRecord)
    (rest : List RawRecord) (i : Nat) (rows : List ProcessedMessage)
    (h : process_message m = Option.none) :
    consumeLoop avail (m :: rest) i rows = consumeLoop avail rest (i + 1) rows ∧
    ((∀ n, avail n = true) →
      ∃ final, consumeLoop avail (m :: rest) i rows = LoopResult.ok final) := by
  constructor
  · simp [consumeLoop, h]
  · intro ha
    rcases consumeLoop_ok_of_avail avail ha rest (i + 1) rows with ⟨f, hf⟩
    exact ⟨f, by simp [consumeLoop, h, hf]⟩

/-- C4 witness: `c4_bad_record_skipped` on the record whose `sentiment`
is the unparseable string "abc", followed by the "meme" record. -/
theorem c4_bad_record_skipped_witness :
    consumeLoop (fun _ => true) [badSentimentRec, memeRec] 0 [] =
      consumeLoop (fun _ => true) [memeRec] 1 [] ∧
    ∃ final, consumeLoop (fun _ => true) [badSentimentRec, memeRec] 0 [] =
      LoopResult.ok final := by
  have h := c4_bad_record_skipped (fun _ => true) badSentimentRec [memeRec] 0 [] rfl
  exact ⟨h.1, h.2 (fun _ => rfl)⟩

/-- C5 counterexample: both records mention "meme" and normalize fine;
the store rejects the very first insert and accepts everything after.
The loop nevertheless terminates at once with the raised storage error
(`LoopResult.failed []`): the second record is never consumed, even
though running the loop on it alone (with the store back up) would have
inserted it. -/
theorem c5_cex :
    consumeLoop (fun n => n != 0) [memeRec, memeRec] 0 [] = LoopResult.failed [] ∧
    consumeLoop (fun n => n != 0) [memeRec] 1 [] = LoopResult.ok [pMeme] := by
  constructor
  · simp [consumeLoop, process_memeRec]
  · simp [consumeLoop, process_memeRec]

/-- C5 amended: when an insert raises (store unreachable or schema
missing) the error is logged and re-raised by the loop's `except`
clause: the loop returns `LoopResult.failed` with the rows inserted so
far and consumes no further records — it halts rather than continuing. -/
theorem c5_insert_error_halts (avail : Nat → Bool) (m : RawRecord)
    (rest : List RawRecord) (i : Nat) (rows : List ProcessedMessage)
    (p : ProcessedMessage) (hp : process_message m = Option.some p)
    (ha : avail i = false) :
    consumeLoop avail (m :: rest) i rows = LoopResult.failed rows := by
  simp [consumeLoop, hp, ha]

/-- C5 witness: `c5_insert_error_halts` on the "meme" record with the
store down. -/
theorem c5_insert_error_halts_witness :
    consumeLoop (fun _ => false) [memeRec, memeRec] 0 [] = LoopResult.failed [] :=
  c5_insert_error_halts (fun _ => false) memeRec [memeRec] 0 [] pMeme process_memeRec rfl

theorem process_message_some_elim (m : RawRecord) (p : ProcessedMessage)
    (h : process_message m = Option.some p) :
    categoryOf (dictGet m "keyword_mentioned" PyVal.null) = Option.some p.category ∧
    pyFloat (dictGet m "sentiment" (PyVal.float 0)) = Option.some p.sentiment ∧
    pyInt (dictGet m "message_length" (PyVal.int 0)) = Option.some p.message_length := by
  rcases hc : categoryOf (dictGet m "keyword_mentioned" PyVal.null) with _ | cat <;>
    rcases hf : pyFloat (dictGet m "sentiment" (PyVal.float 0)) with _ | sc <;>
      rcases hi : pyInt (dictGet m "message_length" (PyVal.int 0)) with _ | len <;>
        simp [process_message, hc, hf, hi] at h
  subst h
  exact ⟨rfl, rfl, rfl⟩

/-- C2: on every successfully processed record, `category` is the value
of `KEYWORD_CATEGORIES` at `keyword_mentioned` whenever that keyword is
a string key of the mapping (exact, case-sensitive match), and it is
"unknown" precisely when the keyword (null, absent, or of any other
shape or spelling) has no entry in the mapping. -/
theorem c2_category_mapping (m : RawRecord) (p : ProcessedMessage)
    (h : process_message m = Option.some p) :
    (∀ s c, dictGet m "keyword_mentioned" PyVal.null = PyVal.str s →
      assocLookup s KEYWORD_CATEGORIES = Option.some c → p.category = c) ∧
    (p.category = "unknown" ↔
      ∀ s, dictGet m "keyword_mentioned" PyVal.null = PyVal.str s →
        assocLookup s KEYWORD_CATEGORIES = Option.none) := by
  have hc := (process_message_some_elim m p h).1
  rcases hk : dictGet m "keyword_mentioned" PyVal.null with _ | b | n | q | s | l | d <;>
    rw [hk] at hc <;> simp [categoryOf] at hc
  · simp [hk, ← hc]
  · simp [hk, ← hc]
  · simp [hk, ← hc]
  · simp [hk, ← hc]
  · rcases hl : assocLookup s KEYWORD_CATEGORIES with _ | v
    · rw [hl, Option.getD_none] at hc
      refine ⟨?_, ?_⟩
      · rintro s' c hss hsc
        injection hss with hs2
        subst hs2
        rw [hl] at hsc
        exact Option.noConfusion hsc
      · refine ⟨fun _ => ?_, fun _ => hc.symm⟩
        rintro s' hss
        injection hss with hs2
        subst hs2
        exact hl
    · rw [hl, Option.getD_some] at hc
      refine ⟨?_, ?_⟩
      · rintro s' c hss hsc
        injection hss with hs2
        subst hs2
        rw [hl] at hsc
        injection hsc with hv
        rw [← hc, hv]
      · constructor
        · intro hu
          exact absurd (hc.trans hu) (assocLookup_kw_ne_unknown s v hl)
        · intro hall
          have h2 := hall s rfl
          rw [hl] at h2
          exact Option.noConfusion h2

/-- C2 witness: `c2_category_mapping` on the "meme" record — its
category is "humor". -/
theorem c2_category_mapping_witness : pMeme.category = "humor" :=
  (c2_category_mapping memeRec pMeme process_memeRec).1 "meme" "humor" rfl rfl

/-- C3 counterexample: a record whose `keyword_mentioned` is a JSON
array. Both `float(…sentiment…)` and `int(…message_length…)` succeed on
this record (both fields default), yet `process_message` still returns
no result, because `KEYWORD_CATEGORIES.get` raises `TypeError` on the
unhashable key — so coercion failure of `sentiment`/`message_length` is
not the only way a record can fail. -/
theorem c3_cex :
    process_message listKwRec = Option.none ∧
    pyFloat (dictGet listKwRec "sentiment" (PyVal.float 0)) = Option.some 0 ∧
    pyInt (dictGet listKwRec "message_length" (PyVal.int 0)) = Option.some 0 :=
  ⟨rfl, rfl, rfl⟩

/-- C3 amended: `process_message` is atomic — it returns no result
exactly when `sentiment` cannot be coerced to a float, or
`message_length` cannot be coerced to an integer, or `keyword_mentioned`
is an unhashable value (a JSON array or object, whose dictionary lookup
raises); and a record that yields no result is skipped by the ingestion
loop, never inserted. -/
theorem c3_atomic_failure (m : RawRecord) :
    (process_message m = Option.none ↔
      pyFloat (dictGet m "sentiment" (PyVal.float 0)) = Option.none ∨
      pyInt (dictGet m "message_length" (PyVal.int 0)) = Option.none ∨
      isUnhashable (dictGet m "keyword_mentioned" PyVal.null) = true) ∧
    (process_message m = Option.none →
      ∀ avail rest i rows, consumeLoop avail (m :: rest) i rows =
        consumeLoop avail rest (i + 1) rows) := by
  constructor
  · rcases hc : categoryOf (dictGet m "keyword_mentioned" PyVal.null) with _ | cat <;>
      rcases hf : pyFloat (dictGet m "sentiment" (PyVal.float 0)) with _ | sc <;>
        rcases hi : pyInt (dictGet m "message_length" (PyVal.int 0)) with _ | len <;>
          simp [process_message, hc, hf, hi, ← categoryOf_eq_none_iff]
  · intro h avail rest i rows
    simp [consumeLoop, h]

/-- C3 witness: `c3_atomic_failure` on the record with unparseable
sentiment "abc". -/
theorem c3_atomic_failure_witness :
    process_message badSentimentRec = Option.none :=
  (c3_atomic_failure badSentimentRec).1.mpr (Or.inl rfl)

/-- C9: a `sentiment` key present with a null value fails the whole
record (`float(None)` raises `TypeError`), while the 0.0 default applies
only when the key is entirely absent — a successfully processed record
without a `sentiment` key carries sentiment 0. -/
theorem c9_null_vs_absent_sentiment (m : RawRecord) :
    (assocLookup "sentiment" m = Option.some PyVal.null →
      process_message m = Option.none) ∧
    (assocLookup "sentiment" m = Option.none →
      ∀ p, process_message m = Option.some p → p.sentiment = 0) := by
  constructor
  · intro h
    have hd : dictGet m "sentiment" (PyVal.float 0) = PyVal.null := by
      simp [dictGet, h]
    rcases hc : categoryOf (dictGet m "keyword_mentioned" PyVal.null) with _ | cat <;>
      rcases hi : pyInt (dictGet m "message_length" (PyVal.int 0)) with _ | len <;>
        simp [process_message, hc, hi, hd, pyFloat]
  · intro h p hp
    have hd : dictGet m "sentiment" (PyVal.float 0) = PyVal.float 0 := by
      simp [dictGet, h]
    have hf := (process_message_some_elim m p hp).2.1
    rw [hd] at hf
    simp only [pyFloat, Option.some.injEq] at hf
    exact hf.symm

/-- C9 witness: `c9_null_vs_absent_sentiment` on the null-sentiment
record (fails) and on the empty record (succeeds with sentiment 0). -/
theorem c9_null_vs_absent_sentiment_witness :
    process_message nullSentimentRec = Option.none ∧ pEmpty.sentiment = 0 :=
  ⟨(c9_null_vs_absent_sentiment nullSentimentRec).1 rfl,
   (c9_null_vs_absent_sentiment emptyRec).2 rfl pEmpty process_emptyRec⟩

/-- C10: a fractional numeric `message_length` is accepted — the record
(whose other coercions succeed) processes, and the stored length is the
number truncated toward zero (`ratTrunc`, with `ratTrunc 15.7 = 15` and
`ratTrunc (-15.7) = -15`); the same value as the string "15.7" is not
parseable by `int(...)` and fails the whole record. -/
theorem c10_fractional_length (m : RawRecord) (q : ℚ) :
    (assocLookup "message_length" m = Option.some (PyVal.float q) →
      ∀ cat sc, categoryOf (dictGet m "keyword_mentioned" PyVal.null) = Option.some cat →
        pyFloat (dictGet m "sentiment" (PyVal.float 0)) = Option.some sc →
        ∃ p, process_message m = Option.some p ∧ p.message_length = ratTrunc q) ∧
    ratTrunc (157/10) = 15 ∧ ratTrunc (-(157/10)) = -15 ∧
    (assocLookup "message_length" m = Option.some (PyVal.str "15.7") →
      process_message m = Option.none) := by
  refine ⟨?_, ?_, ?_, ?_⟩
  · intro hl cat sc hc hf
    have hd : dictGet m "message_length" (PyVal.int 0) = PyVal.float q := by
      simp [dictGet, hl]
    refine ⟨{ message := dictGet m "message" PyVal.null,
              author := dictGet m "author" PyVal.null,
              timestamp := dictGet m "timestamp" PyVal.null,
              category := cat, sentiment := sc,
              sentiment_category := categorize_sentiment sc,
              keyword_mentioned := dictGet m "keyword_mentioned" PyVal.null,
              message_length := ratTrunc q }, ?_, rfl⟩
    simp [process_message, hc, hf, hd, pyInt]
  · norm_num [ratTrunc]
  · norm_num [ratTrunc]
  · intro hl
    have hd : dictGet m "message_length" (PyVal.int 0) = PyVal.str "15.7" := by
      simp [dictGet, hl]
    have hs : strToInt "15.7" = Option.none := rfl
    rcases hc : categoryOf (dictGet m "keyword_mentioned" PyVal.null) with _ | cat <;>
      rcases hf : pyFloat (dictGet m "sentiment" (PyVal.float 0)) with _ | sc <;>
        simp [process_message, hc, hf, hd, pyInt, hs]

/-- C10 witness: `c10_fractional_length` on the concrete records whose
`message_length` is 15.7 (number) and "15.7" (string). -/
theorem c10_fractional_length_witness :
    (∃ p, process_message fracLenRec = Option.some p ∧
      p.message_length = ratTrunc (157/10)) ∧
    ratTrunc (157/10) = 15 ∧
    process_message strLenRec = Option.none := by
  have h := c10_fractional_length fracLenRec (157/10)
  have h2 := c10_fractional_length strLenRec (157/10)
  exact ⟨h.1 rfl "unknown" 0 rfl rfl, h.2.1, h2.2.2.2 rfl⟩

end BuzzlineConsumer
